import Mathlib

/-!
Shallow embedding of the recording/transcription pipeline of `src/main.py`
(class `DictationApp`).  Tkinter widgets are modelled by the text they
display; background-thread dispatches are modelled by counters; the
thread-safe FIFO `queue.Queue` is modelled by a list whose head is the
oldest entry; wall-clock timestamps (`datetime.now().timestamp()`, a float)
are modelled by rationals and Python's `int()` truncation by `pyInt`;
PCM byte chunks returned by `stream.read` are modelled as lists of sample
values.  Python strings that the code computes on (stripping, the
`startswith` classification, concatenation) are modelled as lists of
characters (`PyStr`), so that every operation is structurally recursive
and kernel-evaluable.
-/

namespace PappaPraat

/-- One fixed-size block returned by `stream.read(self.chunk)`:
a list of 16-bit samples. -/
abbrev Chunk := List Int

/-- A Python string, as the list of its characters. -/
abbrev PyStr := List Char

/-- Python `str.strip()`: remove leading and trailing whitespace. -/
def pyStrip (l : PyStr) : PyStr :=
  ((l.dropWhile Char.isWhitespace).reverse.dropWhile Char.isWhitespace).reverse

/-- Python `str.startswith(pre)`. -/
def pyStartsWith (l pre : PyStr) : Bool :=
  pre.isPrefixOf l

/-- The mutable state of `DictationApp` that the pipeline touches, plus
observation fields (`warnings`, `errors`, counters) recording the
user-visible side effects and thread dispatches. -/
structure AppState where
  /-- `self.recording` -/
  recording : Bool
  /-- `self.frames` -/
  frames : List Chunk
  /-- `self.stream`: `none` before any recording; `some id` once opened. -/
  stream : Option Nat
  /-- fresh id for the next `self.audio.open(...)` call -/
  nextStreamId : Nat
  /-- `self.model`: `none` while not loaded, `some size` once loaded. -/
  model : Option String
  /-- `self.model_size` -/
  model_size : String
  /-- `self.language` -/
  language : String
  /-- `self.transcription_queue`, head = oldest entry -/
  transcription_queue : List PyStr
  /-- contents of `self.text_area` -/
  text_area : PyStr
  /-- `self.status_label` text -/
  status_label : String
  /-- `self.record_btn` text -/
  record_btn_text : String
  /-- accumulated `messagebox.showwarning` messages -/
  warnings : List String
  /-- accumulated `messagebox.showerror` messages -/
  errors : List PyStr
  /-- number of `load_whisper_model` thread dispatches -/
  loadsStarted : Nat
  /-- number of `stream.stop_stream(); stream.close()` executions -/
  streamsClosed : Nat
  /-- number of `process_audio` thread dispatches -/
  processDispatches : Nat
  /-- number of `root.after(100, check_transcription_queue)` reschedules -/
  polls : Nat
  deriving Repr, DecidableEq

/-- The state right after `DictationApp.__init__` (which already dispatched
one `load_whisper_model` thread). -/
def initialState : AppState :=
  { recording := false
    frames := []
    stream := none
    nextStreamId := 0
    model := none
    model_size := "base"
    language := "af"
    transcription_queue := []
    text_area := []
    status_label := "Ready to record"
    record_btn_text := "Start Recording"
    warnings := []
    errors := []
    loadsStarted := 1
    streamsClosed := 0
    processDispatches := 0
    polls := 0 }

/-- `load_whisper_model`: spawns a daemon thread that loads the model.
Only the synchronous effect (the dispatch) is modelled here; the thread
body's completion is a separate asynchronous event. -/
def load_whisper_model (s : AppState) : AppState :=
  { s with loadsStarted := s.loadsStarted + 1 }

/-- `on_model_change`: if the newly selected size differs from
`self.model_size`, store it, drop the loaded instance and dispatch a
reload; otherwise do nothing. -/
def on_model_change (s : AppState) (new_model : String) : AppState :=
  if new_model ≠ s.model_size then
    load_whisper_model { s with model_size := new_model, model := none }
  else
    s

/-- `on_language_change`. -/
def on_language_change (s : AppState) (new_language : String) : AppState :=
  { s with language := new_language }

/-- Outcome of `self.audio.open(...)` on the default input device. -/
inductive OpenResult where
  | ok
  | err (msg : String)
  deriving Repr, DecidableEq

/-- `start_recording`: rejected with a warning when `self.model is None`;
otherwise clears `self.frames`, opens a stream (which may raise, caught by
the `except` into an error box — note `self.frames` was already cleared),
sets `self.recording = True`, updates button and status, and spawns the
`record_audio` thread. -/
def start_recording (s : AppState) (dev : OpenResult) : AppState :=
  match s.model with
  | none =>
      { s with warnings := s.warnings ++ ["Please wait for the model to load first."] }
  | some _ =>
      match dev with
      | OpenResult.ok =>
          { s with
              frames := []
              stream := some s.nextStreamId
              nextStreamId := s.nextStreamId + 1
              recording := true
              record_btn_text := "Stop Recording"
              status_label := "Recording... Click stop when finished" }
      | OpenResult.err m =>
          { s with
              frames := []
              errors := s.errors ++ [("Failed to start recording: " ++ m).data] }

/-- `stop_recording`: sets `self.recording = False`, resets button and
status, stops and closes the stream when one exists, and unconditionally
spawns a `process_audio` thread. -/
def stop_recording (s : AppState) : AppState :=
  let s₁ := { s with
                recording := false
                record_btn_text := "Start Recording"
                status_label := "Processing audio..." }
  let s₂ := if s₁.stream.isSome
            then { s₁ with streamsClosed := s₁.streamsClosed + 1 }
            else s₁
  { s₂ with processDispatches := s₂.processDispatches + 1 }

/-- `toggle_recording`: the record-button callback. -/
def toggle_recording (s : AppState) (dev : OpenResult) : AppState :=
  if ¬ s.recording then start_recording s dev else stop_recording s

/-- One iteration event of the `record_audio` loop: either the
`while self.recording` test observed `False`, or `stream.read` returned a
chunk, or `stream.read` raised (the `except` logs and breaks). -/
inductive ReadEvent where
  | stopped
  | chunk (data : Chunk)
  | fail (msg : String)
  deriving Repr, DecidableEq

/-- `record_audio`: the capture loop, folded over its iteration events.
A successful read appends to `frames`; a read failure or an observed stop
signal ends the loop, keeping everything appended so far. -/
def record_audio (frames : List Chunk) : List ReadEvent → List Chunk
  | [] => frames
  | ReadEvent.stopped :: _ => frames
  | ReadEvent.chunk d :: rest => record_audio (frames ++ [d]) rest
  | ReadEvent.fail _ :: _ => frames

/-- Python's `int()` truncation (toward zero) applied to a timestamp. -/
def pyInt (t : ℚ) : ℤ :=
  if t < 0 then -⌊-t⌋ else ⌊t⌋

/-- `os.path.join(self.recordings_dir, f'\x7bint(datetime.now().timestamp())\x7d.wav')`:
the artifact name for a `process_audio` run starting at wall-clock time `t`. -/
def temp_filename (t : ℚ) : String :=
  "recordings/" ++ toString (pyInt t) ++ ".wav"

/-- Outcome of `self.model.transcribe(...)` when a model instance exists. -/
inductive TranscribeOutcome where
  | ok (raw : PyStr)
  | fail (msg : PyStr)
  deriving Repr, DecidableEq

/-- Environment of one `process_audio` run: the wall-clock time at which the
file name is computed, whether `os.makedirs`/`wave` writing raised (and with
which message), and what `transcribe` would return. -/
structure ProcEnv where
  now : ℚ
  writeError : Option PyStr
  transcribe : TranscribeOutcome
  deriving Repr, DecidableEq

/-- The Python message of the `AttributeError` raised by
`self.model.transcribe` when `self.model is None`. -/
def noneTypeMsg : PyStr :=
  "'NoneType' object has no attribute 'transcribe'".data

/-- What one `process_audio` run produces: the artifact file (name and
sample payload) when the write succeeded, and the single entry pushed to
`self.transcription_queue`. -/
structure ProcOutcome where
  artifact : Option (String × Chunk)
  entry : PyStr
  deriving Repr, DecidableEq

/-- `process_audio`: writes `b''.join(self.frames)` into a WAV file named
by the truncated current timestamp, then transcribes it and pushes the
stripped text; any exception along the way is caught and pushed as
`"Error: " + str(e)` instead.  Exactly one entry is pushed on every path. -/
def process_audio (frames : List Chunk) (model : Option String) (env : ProcEnv) :
    ProcOutcome :=
  match env.writeError with
  | some m => { artifact := none, entry := "Error: ".data ++ m }
  | none =>
      let written := some (temp_filename env.now, frames.flatten)
      match model with
      | none => { artifact := written, entry := "Error: ".data ++ noneTypeMsg }
      | some _ =>
          match env.transcribe with
          | TranscribeOutcome.ok raw =>
              { artifact := written, entry := pyStrip raw }
          | TranscribeOutcome.fail m =>
              { artifact := written, entry := "Error: ".data ++ m }

/-- The state-level effect of a dispatched `process_audio` thread running to
completion: its single result is appended to the queue. -/
def run_process_audio (s : AppState) (env : ProcEnv) : AppState :=
  { s with transcription_queue :=
      s.transcription_queue ++ [(process_audio s.frames s.model env).entry] }

/-- The body of the `check_transcription_queue` drain loop applied to one
dequeued entry: an entry starting with `"Error:"` is surfaced as an error
box plus a failed status; any other entry is appended to the text area,
preceded by a blank line when the (stripped) area is nonempty. -/
def applyResult (s : AppState) (t : PyStr) : AppState :=
  if pyStartsWith t "Error:".data then
    { s with
        errors := s.errors ++ [t]
        status_label := "Transcription failed" }
  else if pyStrip s.text_area ≠ [] then
    { s with
        text_area := s.text_area ++ "\n\n".data ++ t
        status_label := "Transcription complete - Ready for next recording" }
  else
    { s with
        text_area := s.text_area ++ t
        status_label := "Transcription complete - Ready for next recording" }

/-- `check_transcription_queue`: repeatedly `get_nowait`s until the queue
raises `Empty` (draining every queued entry, oldest first), then
reschedules itself via `root.after(100, ...)`. -/
def check_transcription_queue (s : AppState) : AppState :=
  let drained := s.transcription_queue.foldl applyResult
      { s with transcription_queue := [] }
  { drained with polls := drained.polls + 1 }

/-! ### Helper lemmas -/

/-- Unfolded form of `stop_recording`. -/
lemma stop_recording_def (s : AppState) :
    stop_recording s =
      { s with
          recording := false
          record_btn_text := "Start Recording"
          status_label := "Processing audio..."
          streamsClosed := if s.stream.isSome then s.streamsClosed + 1 else s.streamsClosed
          processDispatches := s.processDispatches + 1 } := by
  cases h : s.stream.isSome <;> simp [stop_recording, h]

/-- The capture loop appends successful reads in arrival order. -/
lemma record_audio_chunks (frames : List Chunk) (cs : List Chunk) :
    record_audio frames (cs.map ReadEvent.chunk) = frames ++ cs := by
  induction cs generalizing frames with
  | nil => simp [record_audio]
  | cons c rest ih =>
      simp only [List.map_cons, record_audio, ih, List.append_assoc, List.singleton_append]

/-- A read failure ends the capture loop, keeping the chunks already
appended and ignoring every later event. -/
lemma record_audio_chunks_fail (frames : List Chunk) (cs : List Chunk) (msg : String)
    (rest : List ReadEvent) :
    record_audio frames (cs.map ReadEvent.chunk ++ ReadEvent.fail msg :: rest)
      = frames ++ cs := by
  induction cs generalizing frames with
  | nil => simp [record_audio]
  | cons c tail ih =>
      simp only [List.map_cons, List.cons_append, record_audio, List.append_eq]
      rw [ih]
      simp

/-- The drain-loop body never touches the queue itself. -/
lemma applyResult_queue (s : AppState) (t : PyStr) :
    (applyResult s t).transcription_queue = s.transcription_queue := by
  unfold applyResult
  split
  · rfl
  · split <;> rfl

/-- The drain-loop body never reschedules polls. -/
lemma applyResult_polls (s : AppState) (t : PyStr) :
    (applyResult s t).polls = s.polls := by
  unfold applyResult
  split
  · rfl
  · split <;> rfl

/-- Draining any list of entries leaves the queue field unchanged. -/
lemma foldl_applyResult_queue (q : List PyStr) (s : AppState) :
    (q.foldl applyResult s).transcription_queue = s.transcription_queue := by
  induction q generalizing s with
  | nil => rfl
  | cons t rest ih => rw [List.foldl_cons, ih, applyResult_queue]

/-- Draining any list of entries leaves the poll counter unchanged. -/
lemma foldl_applyResult_polls (q : List PyStr) (s : AppState) :
    (q.foldl applyResult s).polls = s.polls := by
  induction q generalizing s with
  | nil => rfl
  | cons t rest ih => rw [List.foldl_cons, ih, applyResult_polls]

/-- Every queue entry produced by a failure path carries the
`"Error:"` mark the consumer tests for. -/
lemma errorEntry_startsWith (m : PyStr) :
    pyStartsWith ("Error: ".data ++ m) "Error:".data = true := rfl

/-- `pyInt` at the first colliding sample time. -/
lemma pyInt_at_a : pyInt (1001/10) = 100 := by
  unfold pyInt
  rw [if_neg (by norm_num), Int.floor_eq_iff]
  norm_num

/-- `pyInt` at the second colliding sample time. -/
lemma pyInt_at_b : pyInt (1009/10) = 100 := by
  unfold pyInt
  rw [if_neg (by norm_num), Int.floor_eq_iff]
  norm_num

/-- A state in the middle of a recording: model loaded, one chunk
captured, stream `0` open. -/
def recState : AppState :=
  { initialState with
      recording := true
      model := some "base"
      frames := [[1, 2]]
      stream := some 0
      nextStreamId := 1 }

/-! ### Claim C1 -/

/-- Claim C1 is false on the code: from a state in which recording is in
progress, calling `start_recording()` directly is not a no-op and raises no
warning — it discards the session buffer, opens a fresh capture stream, and
leaves the state Recording silently. -/
theorem C1_counterexample :
    recState.recording = true ∧
    (start_recording recState OpenResult.ok).frames ≠ recState.frames ∧
    (start_recording recState OpenResult.ok).stream ≠ recState.stream ∧
    (start_recording recState OpenResult.ok).nextStreamId = recState.nextStreamId + 1 ∧
    (start_recording recState OpenResult.ok).warnings = recState.warnings ∧
    (start_recording recState OpenResult.ok).recording = true := by
  decide

/-- Claim C1, amended: while Recording, the user-facing `toggle_recording`
routes to `stop_recording`, so a second start is unreachable from the
record button; `start_recording` itself has no already-Recording guard —
invoked directly with a loaded model it resets the session buffer, opens a
new capture stream, emits no warning, and the state remains Recording. -/
theorem C1_start_has_no_recording_guard (s : AppState) (dev : OpenResult)
    (h : s.recording = true) :
    toggle_recording s dev = stop_recording s ∧
    ∀ m, s.model = some m →
      (start_recording s OpenResult.ok).recording = true ∧
      (start_recording s OpenResult.ok).frames = [] ∧
      (start_recording s OpenResult.ok).stream = some s.nextStreamId ∧
      (start_recording s OpenResult.ok).nextStreamId = s.nextStreamId + 1 ∧
      (start_recording s OpenResult.ok).warnings = s.warnings := by
  refine ⟨by simp [toggle_recording, h], ?_⟩
  intro m hm
  unfold start_recording
  rw [hm]
  exact ⟨rfl, rfl, rfl, rfl, rfl⟩

/-- Witness for the amended C1 theorem at the concrete mid-recording
state. -/
theorem C1_start_has_no_recording_guard_witness :
    toggle_recording recState OpenResult.ok = stop_recording recState ∧
    (start_recording recState OpenResult.ok).recording = true ∧
    (start_recording recState OpenResult.ok).frames = [] ∧
    (start_recording recState OpenResult.ok).stream = some recState.nextStreamId := by
  have h := C1_start_has_no_recording_guard recState OpenResult.ok (by decide)
  have h₂ := h.2 "base" (by decide)
  exact ⟨h.1, h₂.1, h₂.2.1, h₂.2.2.1⟩

/-! ### Claim C2 -/

/-- Claim C2 is false on the code: `stop_recording()` in a non-recording
state is not a no-op — it rewrites the status label and unconditionally
dispatches a `process_audio` worker, whose run pushes one result entry to
the queue. -/
theorem C2_counterexample :
    initialState.recording = false ∧
    (stop_recording initialState).processDispatches
      = initialState.processDispatches + 1 ∧
    (stop_recording initialState).status_label ≠ initialState.status_label ∧
    (run_process_audio (stop_recording initialState)
        { now := 0, writeError := some "disk full".data,
          transcribe := TranscribeOutcome.fail "x".data }).transcription_queue.length
      = initialState.transcription_queue.length + 1 := by
  decide

/-- Claim C2, amended: when not Recording, the record button's
`toggle_recording` routes to `start_recording`, so the unguarded stop is
unreachable from the UI; `stop_recording` itself, called directly while not
Recording, is not a no-op — it resets button and status, leaves the buffer
in place, and unconditionally dispatches `process_audio`, which pushes
exactly one result for the stale buffer. -/
theorem C2_stop_has_no_recording_guard (s : AppState) (dev : OpenResult)
    (h : s.recording = false) :
    toggle_recording s dev = start_recording s dev ∧
    (stop_recording s).recording = false ∧
    (stop_recording s).frames = s.frames ∧
    (stop_recording s).status_label = "Processing audio..." ∧
    (stop_recording s).processDispatches = s.processDispatches + 1 ∧
    ∀ env, (run_process_audio (stop_recording s) env).transcription_queue
      = s.transcription_queue ++ [(process_audio s.frames s.model env).entry] := by
  refine ⟨by simp [toggle_recording, h], ?_, ?_, ?_, ?_, ?_⟩
  · rw [stop_recording_def]
  · rw [stop_recording_def]
  · rw [stop_recording_def]
  · rw [stop_recording_def]
  · intro env
    rw [stop_recording_def]
    rfl

/-- Witness for the amended C2 theorem at the freshly initialized state. -/
theorem C2_stop_has_no_recording_guard_witness :
    toggle_recording initialState OpenResult.ok
      = start_recording initialState OpenResult.ok ∧
    (stop_recording initialState).processDispatches
      = initialState.processDispatches + 1 ∧
    (run_process_audio (stop_recording initialState)
        { now := 0, writeError := none,
          transcribe := TranscribeOutcome.ok " hi ".data }).transcription_queue
      = initialState.transcription_queue
        ++ [(process_audio initialState.frames initialState.model
              { now := 0, writeError := none,
                transcribe := TranscribeOutcome.ok " hi ".data }).entry] := by
  have h := C2_stop_has_no_recording_guard initialState OpenResult.ok (by decide)
  exact ⟨h.1, h.2.2.2.2.1,
    h.2.2.2.2.2 { now := 0, writeError := none,
                  transcribe := TranscribeOutcome.ok " hi ".data }⟩

/-! ### Claim C3 -/

/-- Claim C3 is false on the code: the artifact name is the wall-clock time
of `process_audio` truncated to whole seconds, so two distinct sessions
processed within the same second (here at times 100.1s and 100.9s, with
different audio payloads) are written under the same file name. -/
theorem C3_counterexample :
    (1001/10 : ℚ) ≠ (1009/10 : ℚ) ∧
    temp_filename (1001/10) = temp_filename (1009/10) ∧
    (process_audio [[1]] (some "base")
        { now := 1001/10, writeError := none,
          transcribe := TranscribeOutcome.ok "a".data }).artifact
      = some (temp_filename (1001/10), [1]) ∧
    (process_audio [[2]] (some "base")
        { now := 1009/10, writeError := none,
          transcribe := TranscribeOutcome.ok "b".data }).artifact
      = some (temp_filename (1009/10), [2]) := by
  refine ⟨by norm_num, ?_, rfl, rfl⟩
  unfold temp_filename
  rw [pyInt_at_a, pyInt_at_b]

/-- Claim C3, amended: the artifact name is derived from the wall-clock
time at which `process_audio` runs (not from the session's creation time),
truncated by `int()` to whole seconds; it therefore depends only on the
truncated timestamp, and sessions processed within the same second receive
the same (colliding) file name. -/
theorem C3_name_depends_only_on_second (t₁ t₂ : ℚ)
    (h : pyInt t₁ = pyInt t₂) :
    temp_filename t₁ = temp_filename t₂ ∧
    ∀ frames model out,
      (process_audio frames model
          { now := t₁, writeError := none, transcribe := out }).artifact
        = some (temp_filename t₂, frames.flatten) := by
  have hname : temp_filename t₁ = temp_filename t₂ := by
    unfold temp_filename
    rw [h]
  refine ⟨hname, ?_⟩
  intro frames model out
  rw [← hname]
  cases model <;> cases out <;> rfl

/-- Witness for the amended C3 theorem at the two colliding sample
times. -/
theorem C3_name_depends_only_on_second_witness :
    temp_filename (1001/10) = temp_filename (1009/10) ∧
    (process_audio [[5]] (some "base")
        { now := 1001/10, writeError := none,
          transcribe := TranscribeOutcome.ok "a".data }).artifact
      = some (temp_filename (1009/10), [5]) := by
  have h := C3_name_depends_only_on_second (1001/10) (1009/10)
    (by rw [pyInt_at_a, pyInt_at_b])
  exact ⟨h.1, h.2 [[5]] (some "base") (TranscribeOutcome.ok "a".data)⟩

/-! ### Claim C4 -/

/-- Claim C4: a completed `process_audio` run pushes exactly one entry to
the queue (its totality is structural — every path of the `try/except`
returns one entry, so nothing escapes the worker); on the success path the
entry is the stripped transcript; on the write-failure, engine-missing and
engine-failure paths it is a single `"Error: ..."` message, which always
carries the `"Error:"` mark and is therefore never consumed as a success. -/
theorem C4_exactly_one_result (s : AppState) (env : ProcEnv) :
    (run_process_audio s env).transcription_queue
      = s.transcription_queue ++ [(process_audio s.frames s.model env).entry] ∧
    (∀ raw m, env.writeError = none → s.model = some m →
      env.transcribe = TranscribeOutcome.ok raw →
      (process_audio s.frames s.model env).entry = pyStrip raw) ∧
    (∀ msg, env.writeError = some msg →
      (process_audio s.frames s.model env).entry = "Error: ".data ++ msg) ∧
    (env.writeError = none → s.model = none →
      (process_audio s.frames s.model env).entry = "Error: ".data ++ noneTypeMsg) ∧
    (∀ msg m, env.writeError = none → s.model = some m →
      env.transcribe = TranscribeOutcome.fail msg →
      (process_audio s.frames s.model env).entry = "Error: ".data ++ msg) ∧
    (∀ msg, (process_audio s.frames s.model env).entry = "Error: ".data ++ msg →
      pyStartsWith (process_audio s.frames s.model env).entry "Error:".data = true) := by
  refine ⟨rfl, ?_, ?_, ?_, ?_, ?_⟩
  · intro raw m hw hm ht
    unfold process_audio
    rw [hw, hm, ht]
  · intro msg hw
    unfold process_audio
    rw [hw]
  · intro hw hm
    unfold process_audio
    rw [hw, hm]
  · intro msg m hw hm ht
    unfold process_audio
    rw [hw, hm, ht]
  · intro msg hmsg
    rw [hmsg]
    exact errorEntry_startsWith msg

/-- Witness for C4 at the freshly initialized state (engine still absent):
the run pushes exactly the `AttributeError` entry, tagged as an error. -/
theorem C4_exactly_one_result_witness :
    (run_process_audio initialState
        { now := 0, writeError := none,
          transcribe := TranscribeOutcome.ok " hi ".data }).transcription_queue
      = initialState.transcription_queue
        ++ [(process_audio initialState.frames initialState.model
              { now := 0, writeError := none,
                transcribe := TranscribeOutcome.ok " hi ".data }).entry] ∧
    (process_audio initialState.frames initialState.model
        { now := 0, writeError := none,
          transcribe := TranscribeOutcome.ok " hi ".data }).entry
      = "Error: ".data ++ noneTypeMsg := by
  have h := C4_exactly_one_result initialState
    { now := 0, writeError := none, transcribe := TranscribeOutcome.ok " hi ".data }
  exact ⟨h.1, h.2.2.2.1 rfl rfl⟩

/-! ### Claim C5 -/

/-- Claim C5: each poll of `check_transcription_queue` drains the whole
queue, applying the entries oldest-first (a split of the queue is drained
left part first, then right part); an empty queue leaves the state
untouched apart from the rescheduled poll; in every case the queue ends
empty and exactly one new poll is scheduled. -/
theorem C5_drains_all_in_order (s : AppState) :
    (check_transcription_queue s).transcription_queue = [] ∧
    (check_transcription_queue s).polls = s.polls + 1 ∧
    check_transcription_queue s
      = { s.transcription_queue.foldl applyResult
            { s with transcription_queue := [] } with
          polls := s.polls + 1 } ∧
    (∀ (q₁ q₂ : List PyStr) (s₀ : AppState),
      (q₁ ++ q₂).foldl applyResult s₀
        = q₂.foldl applyResult (q₁.foldl applyResult s₀)) ∧
    (s.transcription_queue = [] →
      check_transcription_queue s = { s with polls := s.polls + 1 }) := by
  refine ⟨?_, ?_, ?_, ?_, ?_⟩
  · show (s.transcription_queue.foldl applyResult
        { s with transcription_queue := [] }).transcription_queue = []
    rw [foldl_applyResult_queue]
  · show (s.transcription_queue.foldl applyResult
        { s with transcription_queue := [] }).polls + 1 = s.polls + 1
    rw [foldl_applyResult_polls]
  · show ({ s.transcription_queue.foldl applyResult
        { s with transcription_queue := [] } with
        polls := (s.transcription_queue.foldl applyResult
          { s with transcription_queue := [] }).polls + 1 })
      = _
    rw [foldl_applyResult_polls]
  · intro q₁ q₂ s₀
    exact List.foldl_append applyResult s₀ q₁ q₂
  · intro h
    obtain ⟨rec, fr, st, nid, mo, ms, lang, tq, ta, sl, rbt, w, e, ls, sc, pd, p⟩ := s
    replace h : tq = [] := h
    subst h
    rfl

/-- Witness for C5: a queue holding one success and one error entry is
fully drained in order; the empty-queue case at the initial state is a
pure reschedule. -/
theorem C5_drains_all_in_order_witness :
    (check_transcription_queue
        { initialState with
            transcription_queue := ["one".data, "Error: two".data] }).transcription_queue
      = [] ∧
    check_transcription_queue initialState
      = { initialState with polls := initialState.polls + 1 } := by
  exact ⟨(C5_drains_all_in_order
      { initialState with
          transcription_queue := ["one".data, "Error: two".data] }).1,
    (C5_drains_all_in_order initialState).2.2.2.2 rfl⟩

/-! ### Claim C6 -/

/-- Claim C6: over one session, the capture loop appends exactly the read
chunks in arrival order, and (when the write succeeds) the artifact payload
is their concatenation in that order, whose sample count is the sum of the
chunks' sample counts — no loss, no reordering, no duplication. -/
theorem C6_artifact_is_concatenation (cs : List Chunk) (model : Option String)
    (t : ℚ) (out : TranscribeOutcome) :
    record_audio [] (cs.map ReadEvent.chunk) = cs ∧
    (process_audio cs model
        { now := t, writeError := none, transcribe := out }).artifact
      = some (temp_filename t, cs.flatten) ∧
    cs.flatten.length = (cs.map List.length).sum := by
  refine ⟨?_, ?_, ?_⟩
  · simpa using record_audio_chunks [] cs
  · cases model <;> cases out <;> rfl
  · simp

/-! ### Claim C7 -/

/-- Claim C7: while the engine is not yet loaded (`self.model is None`),
`start_recording` only shows the "please wait" warning: no session buffer
is reset, no capture stream is opened, and the recording state is
untouched (Idle stays Idle). -/
theorem C7_rejected_when_not_ready (s : AppState) (dev : OpenResult)
    (h : s.model = none) :
    start_recording s dev
      = { s with warnings := s.warnings ++ ["Please wait for the model to load first."] } ∧
    (start_recording s dev).recording = s.recording ∧
    (start_recording s dev).frames = s.frames ∧
    (start_recording s dev).stream = s.stream ∧
    (start_recording s dev).nextStreamId = s.nextStreamId ∧
    (s.recording = false → (start_recording s dev).recording = false) := by
  unfold start_recording
  rw [h]
  exact ⟨rfl, rfl, rfl, rfl, rfl, fun hr => hr⟩

/-- Witness for C7 at the freshly initialized state, before the model
load completes. -/
theorem C7_rejected_when_not_ready_witness :
    start_recording initialState OpenResult.ok
      = { initialState with
            warnings := initialState.warnings
              ++ ["Please wait for the model to load first."] } ∧
    (start_recording initialState OpenResult.ok).recording = false := by
  have h := C7_rejected_when_not_ready initialState OpenResult.ok rfl
  exact ⟨h.1, h.2.2.2.2.2 rfl⟩

/-! ### Claim C8 -/

/-- Claim C8: a `stream.read` failure only breaks the capture loop (the
`except` swallows the exception, so the process survives by construction);
the chunks appended before the failure stay in the session buffer, and on
stop they are still handed to `process_audio`, whose single result for
exactly that partial buffer reaches the queue. -/
theorem C8_read_failure_keeps_partial (s : AppState) (cs : List Chunk)
    (msg : String) (rest : List ReadEvent) (env : ProcEnv) :
    record_audio s.frames (cs.map ReadEvent.chunk ++ ReadEvent.fail msg :: rest)
      = s.frames ++ cs ∧
    (stop_recording { s with frames := s.frames ++ cs }).frames = s.frames ++ cs ∧
    (stop_recording { s with frames := s.frames ++ cs }).processDispatches
      = s.processDispatches + 1 ∧
    (run_process_audio (stop_recording { s with frames := s.frames ++ cs })
        env).transcription_queue
      = s.transcription_queue
        ++ [(process_audio (s.frames ++ cs) s.model env).entry] := by
  refine ⟨record_audio_chunks_fail s.frames cs msg rest, ?_, ?_, ?_⟩
  · rw [stop_recording_def]
  · rw [stop_recording_def]
  · rw [stop_recording_def]
    rfl

/-! ### Claim C9 -/

/-- Claim C9: `on_model_change` with the already selected size is a
complete no-op (the loaded instance is kept, no reload is dispatched);
with a different size it drops the loaded instance, stores the new size,
and dispatches exactly one asynchronous reload. -/
theorem C9_model_change_idempotent (s : AppState) (new_model : String) :
    (new_model = s.model_size → on_model_change s new_model = s) ∧
    (new_model ≠ s.model_size →
      (on_model_change s new_model).model = none ∧
      (on_model_change s new_model).model_size = new_model ∧
      (on_model_change s new_model).language = s.language ∧
      (on_model_change s new_model).loadsStarted = s.loadsStarted + 1) := by
  constructor
  · intro h
    unfold on_model_change
    rw [if_neg (fun hn => hn h)]
  · intro h
    unfold on_model_change load_whisper_model
    rw [if_pos h]
    exact ⟨rfl, rfl, rfl, rfl⟩

/-- Witness for C9: re-selecting "base" at the initial state changes
nothing; selecting "tiny" drops the instance and dispatches a reload. -/
theorem C9_model_change_idempotent_witness :
    on_model_change initialState "base" = initialState ∧
    (on_model_change initialState "tiny").model = none ∧
    (on_model_change initialState "tiny").model_size = "tiny" ∧
    (on_model_change initialState "tiny").loadsStarted
      = initialState.loadsStarted + 1 := by
  have h₁ := (C9_model_change_idempotent initialState "base").1 rfl
  have h₂ := (C9_model_change_idempotent initialState "tiny").2 (by decide)
  exact ⟨h₁, h₂.1, h₂.2.1, h₂.2.2.2⟩

/-! ### Claim C10 -/

/-- Claim C10: the consumer classifies a drained entry as an error exactly
when it starts with `"Error:"`; an entry so classified is surfaced as an
error box plus a failed status and never reaches the text area, while any
other entry leaves the error list untouched; and a successful
transcription's queue entry is just the stripped recognized text — so a
transcript that itself begins with `"Error:"` is mis-surfaced as an error
and never appended, even though transcription succeeded. -/
theorem C10_error_prefix_classification (s : AppState) (t raw : PyStr)
    (frames : List Chunk) (m : String) (t₀ : ℚ) :
    ((applyResult s t).errors ≠ s.errors ↔ pyStartsWith t "Error:".data = true) ∧
    (pyStartsWith t "Error:".data = true →
      (applyResult s t).text_area = s.text_area ∧
      (applyResult s t).errors = s.errors ++ [t] ∧
      (applyResult s t).status_label = "Transcription failed") ∧
    (pyStartsWith t "Error:".data = false →
      (applyResult s t).errors = s.errors) ∧
    ((process_audio frames (some m)
        { now := t₀, writeError := none,
          transcribe := TranscribeOutcome.ok raw }).entry
      = pyStrip raw) := by
  have herr : pyStartsWith t "Error:".data = true →
      applyResult s t
        = { s with
              errors := s.errors ++ [t]
              status_label := "Transcription failed" } := by
    intro hu
    unfold applyResult
    rw [if_pos hu]
  have hnoerr : pyStartsWith t "Error:".data = false →
      (applyResult s t).errors = s.errors := by
    intro hf
    unfold applyResult
    rw [if_neg (by simp [hf])]
    split <;> rfl
  refine ⟨?_, ?_, hnoerr, rfl⟩
  · constructor
    · intro hne
      cases hb : pyStartsWith t "Error:".data
      · exact absurd (hnoerr hb) hne
      · rfl
    · intro hb
      rw [herr hb]
      simp
  · intro hb
    rw [herr hb]
    exact ⟨rfl, rfl, rfl⟩

/-- Witness for C10: the entry `"Error: boom"`, even when it is the
stripped text of a successful transcription, is surfaced as an error and
never appended to the (nonempty) text area. -/
theorem C10_error_prefix_classification_witness :
    (applyResult { initialState with text_area := "hello".data }
        "Error: boom".data).text_area
      = ({ initialState with text_area := "hello".data } : AppState).text_area ∧
    (applyResult { initialState with text_area := "hello".data }
        "Error: boom".data).errors
      = ({ initialState with text_area := "hello".data } : AppState).errors
        ++ ["Error: boom".data] ∧
    (process_audio [[1]] (some "base")
        { now := 0, writeError := none,
          transcribe := TranscribeOutcome.ok " Error: boom ".data }).entry
      = pyStrip " Error: boom ".data ∧
    pyStrip " Error: boom ".data = "Error: boom".data := by
  have h := C10_error_prefix_classification
    { initialState with text_area := "hello".data }
    "Error: boom".data " Error: boom ".data [[1]] "base" 0
  have h₂ := h.2.1 (by decide)
  exact ⟨h₂.1, h₂.2.1, h.2.2.2, by decide⟩

end PappaPraat
